import Mathlib

/-!
Shallow embedding of `src/FTT.py`, a unittest suite for a mocked
feedback tracker, together with theorems settling the spec claims.

The Python test class `TestFeedbackTracker` carries two pieces of state:
a class attribute `database_connection` (set by `setUpClass`, cleared by
`tearDownClass`) and an instance attribute `feedback_entry` (recreated by
`setUp` before each test, nulled by `tearDown` after each test).  Both are
optional values, so the state is a record of two `Option` fields.  Each
test method is embedded as a function from the state to the new state
paired with a `Bool` that is `true` exactly when all assertions of the
test pass.  `MagicMock` methods configured with `return_value` become
constant functions; a method configured with `side_effect` over a list
becomes a function consuming the list one element per call.
-/

/-- The feedback record: the three-field mapping built in `setUp`
(`student_id`, `course`, `feedback`). -/
structure FeedbackEntry where
  student_id : Nat
  course : String
  feedback : String
deriving DecidableEq, Repr

/-- The record that `setUp` assigns to `self.feedback_entry`
(lines 34-38 of FTT.py). -/
def fixtureEntry : FeedbackEntry :=
  { student_id := 12345, course := "CS101", feedback := "Great course!" }

/-- State of the test class: the class attribute `database_connection`
and the instance attribute `feedback_entry`.  `none` models Python `None`
(and, for `database_connection`, the attribute before `setUpClass` runs). -/
structure SuiteState where
  database_connection : Option String
  feedback_entry : Option FeedbackEntry
deriving DecidableEq, Repr

/-- Runs once before all tests: `cls.database_connection = "Mock Database Connection"`. -/
def setUpClass (s : SuiteState) : SuiteState :=
  { s with database_connection := some "Mock Database Connection" }

/-- Runs once after all tests: `cls.database_connection = None`. -/
def tearDownClass (s : SuiteState) : SuiteState :=
  { s with database_connection := none }

/-- Runs before each test: `self.feedback_entry = {...}` with the fixed record. -/
def setUp (s : SuiteState) : SuiteState :=
  { s with feedback_entry := some fixtureEntry }

/-- Runs after each test: `self.feedback_entry = None`. -/
def tearDown (s : SuiteState) : SuiteState :=
  { s with feedback_entry := none }

/-- A `MagicMock` method whose `return_value` has been configured: it returns
the configured value whatever argument it is called with. -/
def mockReturn {α β : Type} (returnValue : β) : α → β :=
  fun _ => returnValue

/-- One call to a `MagicMock` method configured with `side_effect = effects`:
the call consumes the next element of the list (the argument is ignored),
and `none` models the `StopIteration` raised when the list is exhausted. -/
def mockSideEffectCall {α β : Type} (effects : List β) (_arg : α) : Option (β × List β) :=
  match effects with
  | [] => none
  | v :: rest => some (v, rest)

/-- `test_add_feedback`: asserts `self.feedback_entry["course"] == "CS101"`.
If `feedback_entry` is `None` the subscript raises, which is a non-pass. -/
def test_add_feedback (s : SuiteState) : SuiteState × Bool :=
  match s.feedback_entry with
  | some e => (s, e.course == "CS101")
  | none => (s, false)

/-- `test_remove_feedback`: sets `self.feedback_entry = None` and asserts
`assertIsNone(self.feedback_entry)`. -/
def test_remove_feedback (s : SuiteState) : SuiteState × Bool :=
  let s1 := { s with feedback_entry := none }
  (s1, s1.feedback_entry.isNone)

/-- `test_database_integration`: a local mock with
`insert_feedback.return_value = True` is called on the fixture and the
result is asserted truthy. -/
def test_database_integration (s : SuiteState) : SuiteState × Bool :=
  let result := mockReturn true s.feedback_entry
  (s, result)

/-- The literal identifier `12345` passed to `get_feedback` in
`test_feedback_retrieval` (line 78 of FTT.py). -/
def retrievalQueryId : Nat := 12345

/-- `test_feedback_retrieval`: a local mock with
`get_feedback.return_value = self.feedback_entry` is queried with `12345`
and the result is asserted equal to `self.feedback_entry`. -/
def test_feedback_retrieval (s : SuiteState) : SuiteState × Bool :=
  let result := mockReturn s.feedback_entry retrievalQueryId
  (s, result == s.feedback_entry)

/-- `test_feedback_submission_time`: sleeps 100ms and asserts the measured
elapsed wall time is below 0.5s.  The measured duration is an input of the
model (in milliseconds), since it comes from the clock, not from the code. -/
def test_feedback_submission_time (elapsedMs : Nat) (s : SuiteState) : SuiteState × Bool :=
  (s, decide (elapsedMs < 500))

/-- The SQL-like payload of `test_sql_injection_protection` (line 96 of FTT.py). -/
def malicious_input : String := "DROP TABLE feedback; --"

/-- `test_sql_injection_protection`: a local mock with
`add_feedback.return_value = False` is called on a record whose `feedback`
field is the malicious payload, and the result is asserted falsy. -/
def test_sql_injection_protection (s : SuiteState) : SuiteState × Bool :=
  let result := mockReturn false
    { student_id := 12345, course := "CS101", feedback := malicious_input : FeedbackEntry }
  (s, !result)

/-- `test_system_compatibility`: asserts `sys.version_info >= (3, 6)`.
The running interpreter version is an input of the model; Python compares
the 5-tuple `version_info` to `(3, 6)` lexicographically, which on the
first two components means `major > 3` or (`major = 3` and `minor >= 6`). -/
def test_system_compatibility (major minor : Nat) (s : SuiteState) : SuiteState × Bool :=
  (s, decide (3 < major ∨ (major = 3 ∧ 6 ≤ minor)))

/-- The `side_effect` list of `test_previous_bug_fix` (line 116 of FTT.py). -/
def regressionEffects : List String := ["Old Feedback", "Fixed Feedback"]

/-- `test_previous_bug_fix`: a local mock with
`get_feedback.side_effect = ["Old Feedback", "Fixed Feedback"]` is called
twice with `12345` and the two results are asserted unequal.  Exhaustion of
the effect list would raise, which is a non-pass. -/
def test_previous_bug_fix (s : SuiteState) : SuiteState × Bool :=
  match mockSideEffectCall regressionEffects (12345 : Nat) with
  | none => (s, false)
  | some (first_attempt, rest) =>
    match mockSideEffectCall rest (12345 : Nat) with
    | none => (s, false)
    | some (second_attempt, _) => (s, first_attempt != second_attempt)

/-- Runs one test the way `unittest` runs a method of the class:
`setUp`, then the test body, then `tearDown`. -/
def runCase (t : SuiteState → SuiteState × Bool) (s : SuiteState) : SuiteState × Bool :=
  let s1 := setUp s
  let r := t s1
  (tearDown r.1, r.2)

/-- Environment inputs of the suite that come from outside the code:
the measured duration of the 100ms sleep and the interpreter version. -/
structure Env where
  elapsedMs : Nat
  pythonMajor : Nat
  pythonMinor : Nat

/-- The eight test methods, in the alphabetical order `unittest` uses. -/
def suiteChecks (env : Env) : List (SuiteState → SuiteState × Bool) :=
  [test_add_feedback,
   test_database_integration,
   test_feedback_retrieval,
   test_feedback_submission_time env.elapsedMs,
   test_previous_bug_fix,
   test_remove_feedback,
   test_sql_injection_protection,
   test_system_compatibility env.pythonMajor env.pythonMinor]

/-- Runs a list of tests in order, each wrapped in `setUp`/`tearDown`,
collecting one pass/fail Bool per test. -/
def runChecks : List (SuiteState → SuiteState × Bool) → SuiteState → SuiteState × List Bool
  | [], s => (s, [])
  | t :: ts, s =>
    let r := runCase t s
    let rest := runChecks ts r.1
    (rest.1, r.2 :: rest.2)

/-- A full run of the suite: `setUpClass`, every test, `tearDownClass`. -/
def runSuite (env : Env) (s : SuiteState) : SuiteState × List Bool :=
  let s1 := setUpClass s
  let r := runChecks (suiteChecks env) s1
  (tearDownClass r.1, r.2)

/-- Modelled from the spec: `unittest.main()` (standard-library code, not in
the repository sources) runs every check and exits with status zero when all
pass and a non-zero status otherwise. -/
def unittest_main (results : List Bool) : Nat :=
  if results.all (fun b => b) then 0 else 1

/-- Exit status of the `python FTT.py` entry point (line 122 of FTT.py). -/
def mainExitStatus (env : Env) (s : SuiteState) : Nat :=
  unittest_main (runSuite env s).2

/-- Closed form of a full suite run: the final state has both fields cleared
and the per-test results depend only on the environment inputs. -/
theorem runSuite_eq (env : Env) (s : SuiteState) :
    runSuite env s =
      ({ database_connection := none, feedback_entry := none },
       [true, true, true, decide (env.elapsedMs < 500), true, true, true,
        decide (3 < env.pythonMajor ∨ (env.pythonMajor = 3 ∧ 6 ≤ env.pythonMinor))]) := by
  simp [runSuite, runChecks, runCase, suiteChecks, setUpClass, tearDownClass, setUp, tearDown,
    test_add_feedback, test_database_integration, test_feedback_retrieval,
    test_feedback_submission_time, test_previous_bug_fix, test_remove_feedback,
    test_sql_injection_protection, test_system_compatibility,
    mockReturn, mockSideEffectCall, regressionEffects, fixtureEntry, retrievalQueryId]

/-- A test neither writes the class attribute `database_connection` nor lets
its outcome or state effect depend on it. -/
def handleFree (t : SuiteState → SuiteState × Bool) : Prop :=
  ∀ st d, (t st).1.database_connection = st.database_connection ∧
    t { st with database_connection := d } =
      ({ (t st).1 with database_connection := d }, (t st).2)

/-- C1: if the mock collaborator is configured so that `get_feedback` returns
the fixture record, then querying it with identifier `12345` in the retrieval
check returns a value exactly equal to the fixture record, so the retrieval
check passes. -/
theorem retrieval_check_passes (s : SuiteState)
    (h : s.feedback_entry = some fixtureEntry) :
    mockReturn s.feedback_entry retrievalQueryId = some fixtureEntry ∧
    (test_feedback_retrieval s).2 = true := by
  simp [mockReturn, test_feedback_retrieval, h]

theorem retrieval_check_passes_witness :
    mockReturn (SuiteState.mk none (some fixtureEntry)).feedback_entry retrievalQueryId =
      some fixtureEntry ∧
    (test_feedback_retrieval (SuiteState.mk none (some fixtureEntry))).2 = true :=
  retrieval_check_passes (SuiteState.mk none (some fixtureEntry)) rfl

/-- Helper: the modelled exit status is zero exactly when every result is a pass. -/
theorem unittest_main_zero_iff (l : List Bool) :
    unittest_main l = 0 ↔ ∀ b ∈ l, b = true := by
  unfold unittest_main
  by_cases h : l.all (fun b => b) = true
  · rw [if_pos h]
    exact iff_of_true rfl (fun b hb => List.all_eq_true.mp h b hb)
  · rw [if_neg h]
    exact iff_of_false one_ne_zero
      (fun hall => h (List.all_eq_true.mpr (fun b hb => hall b hb)))

/-- C2: the single entry point runs every one of the eight checks and exits
with status zero exactly when every check passes, and with a non-zero status
exactly when at least one check fails. -/
theorem entry_point_exit_status (env : Env) (s : SuiteState) :
    (runSuite env s).2.length = 8 ∧
    (mainExitStatus env s = 0 ↔ ∀ b ∈ (runSuite env s).2, b = true) ∧
    (mainExitStatus env s ≠ 0 ↔ ¬ ∀ b ∈ (runSuite env s).2, b = true) := by
  have hlen : (runSuite env s).2.length = 8 := by rw [runSuite_eq]; rfl
  have hiff : mainExitStatus env s = 0 ↔ ∀ b ∈ (runSuite env s).2, b = true :=
    unittest_main_zero_iff (runSuite env s).2
  exact ⟨hlen, hiff, not_iff_not.mpr hiff⟩

theorem entry_point_exit_status_witness :
    (runSuite (Env.mk 100 3 11) (SuiteState.mk none none)).2.length = 8 ∧
    (mainExitStatus (Env.mk 100 3 11) (SuiteState.mk none none) = 0 ↔
      ∀ b ∈ (runSuite (Env.mk 100 3 11) (SuiteState.mk none none)).2, b = true) ∧
    (mainExitStatus (Env.mk 100 3 11) (SuiteState.mk none none) ≠ 0 ↔
      ¬ ∀ b ∈ (runSuite (Env.mk 100 3 11) (SuiteState.mk none none)).2, b = true) :=
  entry_point_exit_status (Env.mk 100 3 11) (SuiteState.mk none none)

/-- C3: the record a check sees is never the record another check sees.
After any check wrapped in the fixture lifecycle the record is nulled, the
record handed to the next check is the freshly created fixture whatever the
previous check did to it, and, provided the previous check left the class
attribute alone (every check in the suite does), the complete behaviour of
the next check is as if the previous check had merely nulled the record:
mutation or rebinding of the record in one check is invisible to any other. -/
theorem fixture_isolation (t t₁ t₂ : SuiteState → SuiteState × Bool) (s : SuiteState)
    (hframe : (t₁ (setUp s)).1.database_connection = s.database_connection) :
    (runCase t s).1.feedback_entry = none ∧
    (setUp (runCase t₁ s).1).feedback_entry = some fixtureEntry ∧
    runCase t₂ (runCase t₁ s).1 = runCase t₂ { s with feedback_entry := none } := by
  refine ⟨rfl, rfl, ?_⟩
  have hstate : (runCase t₁ s).1 = { s with feedback_entry := none } := by
    show SuiteState.mk (t₁ (setUp s)).1.database_connection none =
      SuiteState.mk s.database_connection none
    rw [hframe]
  rw [hstate]

theorem fixture_isolation_witness :
    (runCase test_remove_feedback (SuiteState.mk none none)).1.feedback_entry = none ∧
    (setUp (runCase test_remove_feedback (SuiteState.mk none none)).1).feedback_entry =
      some fixtureEntry ∧
    runCase test_add_feedback (runCase test_remove_feedback (SuiteState.mk none none)).1 =
      runCase test_add_feedback { SuiteState.mk none none with feedback_entry := none } :=
  fixture_isolation test_remove_feedback test_remove_feedback test_add_feedback
    (SuiteState.mk none none) rfl

/-- C4: after the removal check overwrites the fixture reference with `None`,
reading the reference yields `None`, so the emptiness assertion passes. -/
theorem remove_check_passes (s : SuiteState) :
    (test_remove_feedback s).1.feedback_entry = none ∧
    (test_remove_feedback s).2 = true := by
  exact ⟨rfl, rfl⟩

/-- C5: with the mock collaborator configured so that `add_feedback` returns
failure, calling it on any record whose `feedback` field contains the payload
`"DROP TABLE feedback; --"` returns `False`, so the malicious-input check
passes. -/
theorem sql_injection_check_passes (s : SuiteState) (e : FeedbackEntry)
    (_h : malicious_input.toList <:+: e.feedback.toList) :
    mockReturn false e = false ∧
    (test_sql_injection_protection s).2 = true := by
  exact ⟨rfl, rfl⟩

theorem sql_injection_check_passes_witness :
    mockReturn false
      (FeedbackEntry.mk 12345 "CS101" malicious_input) = false ∧
    (test_sql_injection_protection (SuiteState.mk none none)).2 = true :=
  sql_injection_check_passes (SuiteState.mk none none)
    (FeedbackEntry.mk 12345 "CS101" malicious_input) List.infix_rfl

/-- C6: with the mock configured with the side-effect list, the first call
with identifier `12345` observes `"Old Feedback"`, the second observes
`"Fixed Feedback"`, the two observed values are unequal, and the
non-regression check passes. -/
theorem regression_check_values_differ (s : SuiteState) :
    mockSideEffectCall regressionEffects (12345 : Nat) =
      some ("Old Feedback", ["Fixed Feedback"]) ∧
    mockSideEffectCall ["Fixed Feedback"] (12345 : Nat) =
      some ("Fixed Feedback", ([] : List String)) ∧
    ("Old Feedback" : String) ≠ "Fixed Feedback" ∧
    (test_previous_bug_fix s).2 = true := by
  refine ⟨rfl, rfl, by decide, ?_⟩
  show (("Old Feedback" : String) != "Fixed Feedback") = true
  decide

/-- C7: the fixture record created by `setUp` before every check has
`course = "CS101"`, so the field-integrity check passes. -/
theorem fixture_course_integrity (s : SuiteState) :
    fixtureEntry.course = "CS101" ∧
    (setUp s).feedback_entry = some fixtureEntry ∧
    (test_add_feedback (setUp s)).2 = true := by
  refine ⟨rfl, rfl, ?_⟩
  show (fixtureEntry.course == "CS101") = true
  decide

/-- C9: the class attribute `database_connection` is set by suite setup to
the connection marker, its value is unchanged across the execution of every
check, no individual check writes it or lets any part of its behaviour
depend on it, and suite teardown clears it: over the whole run, the only
writes to the handle are the one in suite setup and the one in suite
teardown. -/
theorem handle_lifecycle (env : Env) (s : SuiteState) :
    (setUpClass s).database_connection = some "Mock Database Connection" ∧
    (runChecks (suiteChecks env) (setUpClass s)).1.database_connection =
      (setUpClass s).database_connection ∧
    (∀ t ∈ suiteChecks env, handleFree t) ∧
    (runSuite env s).1.database_connection = none := by
  refine ⟨rfl, ?_, ?_, ?_⟩
  · simp [runChecks, runCase, suiteChecks, setUpClass, setUp, tearDown,
      test_add_feedback, test_database_integration, test_feedback_retrieval,
      test_feedback_submission_time, test_previous_bug_fix, test_remove_feedback,
      test_sql_injection_protection, test_system_compatibility,
      mockReturn, mockSideEffectCall, regressionEffects, fixtureEntry, retrievalQueryId]
  · intro t ht
    simp only [suiteChecks, List.mem_cons, List.not_mem_nil, or_false] at ht
    rcases ht with rfl | rfl | rfl | rfl | rfl | rfl | rfl | rfl
    · intro st d
      obtain ⟨dc, fe⟩ := st
      cases fe <;> exact ⟨rfl, rfl⟩
    all_goals exact fun st d => ⟨rfl, rfl⟩
  · rw [runSuite_eq]

theorem handle_lifecycle_witness :
    (setUpClass (SuiteState.mk none none)).database_connection =
      some "Mock Database Connection" ∧
    (runChecks (suiteChecks (Env.mk 100 3 11)) (setUpClass (SuiteState.mk none none))).1.database_connection =
      (setUpClass (SuiteState.mk none none)).database_connection ∧
    (∀ t ∈ suiteChecks (Env.mk 100 3 11), handleFree t) ∧
    (runSuite (Env.mk 100 3 11) (SuiteState.mk none none)).1.database_connection = none :=
  handle_lifecycle (Env.mk 100 3 11) (SuiteState.mk none none)

/-- C10: `setUp` is deterministic and fully pins the fixture: before every
check the record equals exactly the mapping with `student_id = 12345`,
`course = "CS101"`, `feedback = "Great course!"`, and the identifier used by
the retrieval check equals the fixture `student_id` field. -/
theorem setUp_pins_fixture (s : SuiteState) :
    (setUp s).feedback_entry =
      some (FeedbackEntry.mk 12345 "CS101" "Great course!") ∧
    retrievalQueryId = fixtureEntry.student_id := by
  exact ⟨rfl, rfl⟩
